import Mathlib

/-!
# Poem Studio — verified model of the action handlers

A shallow embedding of `src/actions/index.ts` together with the table
shapes declared in the schema file. The external database is modelled as
an in-memory `State` holding the rows of the two tables; each handler is
a function from the request context, an environment (supplying the fresh
UUID of `crypto.randomUUID()` and the clock reading of `new Date()`) and
the current state to the next state paired with an `Except` result, in
the exact order the TypeScript performs its reads, writes and throws.

Timestamps are naturals, ids are strings.  An input field declared
`z.string().optional()` is an `Option String` where `none` is "field
omitted"; `null` is not admitted by any of these schemas.  The zod
validation that Astro runs before invoking a handler is modelled by
`validateRequest`, and `run` composes validation with the handler the
way the framework does.
-/

namespace PoemStudio

/-- Error codes surfaced by the action layer: `UNAUTHORIZED` and
`NOT_FOUND` are thrown by the handlers; `BAD_REQUEST` stands for the
input-validation failure the framework raises before a handler runs. -/
inductive ErrCode where
  | unauthorized
  | notFound
  | badRequest
deriving DecidableEq, Repr

/-- `ActionError` from `astro:actions`: a code plus a message. -/
structure ActionError where
  code : ErrCode
  message : String
deriving DecidableEq, Repr

/-- The authenticated user found on `context.locals`. -/
structure User where
  id : String
deriving DecidableEq, Repr

/-- The request context: `locals.user` is absent when the caller is not
signed in. -/
structure Ctx where
  user : Option User
deriving DecidableEq, Repr

/-- A row of the `PoemCollections` table (schema file). -/
structure Collection where
  id : String
  userId : String
  name : String
  description : Option String
  icon : Option String
  isDefault : Bool
  createdAt : Nat
  updatedAt : Nat
deriving DecidableEq, Repr

/-- A row of the `Poems` table (schema file).  `collectionId` is the
nullable reference to the owning collection. -/
structure Poem where
  id : String
  collectionId : Option String
  userId : String
  title : Option String
  form : Option String
  style : Option String
  language : Option String
  prompt : Option String
  body : String
  notes : Option String
  isFavorite : Bool
  createdAt : Nat
  updatedAt : Nat
deriving DecidableEq, Repr

/-- The whole persistent store: the rows of the two tables. -/
structure State where
  collections : List Collection
  poems : List Poem
deriving DecidableEq, Repr

/-- The ambient effects a handler draws on: the UUID that
`crypto.randomUUID()` would produce and the clock reading of
`new Date()`. -/
structure Env where
  freshId : String
  now : Nat
deriving DecidableEq, Repr

/-- `requireUser` (index.ts lines 5–17): extract the authenticated user
from the context or throw `UNAUTHORIZED`. -/
def requireUser (ctx : Ctx) : Except ActionError User :=
  match ctx.user with
  | some user => .ok user
  | none => .error ⟨.unauthorized, "You must be signed in to perform this action."⟩

/-- `getOwnedCollection` (index.ts lines 19–33): select the first
collection whose id and userId both match, throwing `NOT_FOUND` when
there is none. -/
def getOwnedCollection (s : State) (collectionId userId : String) :
    Except ActionError Collection :=
  match s.collections.find? (fun c => c.id == collectionId && c.userId == userId) with
  | some c => .ok c
  | none => .error ⟨.notFound, "Collection not found."⟩

/-- JavaScript truthiness of a `string | undefined` value: truthy
exactly when the string is present and nonempty.  Used by the
`if (input.collectionId)` guards in createPoem and listPoems. -/
def truthy : Option String → Bool
  | some s => s ≠ ""
  | none => false

/-- Input of `createCollection` after zod parsing. -/
structure CreateCollectionInput where
  name : String
  description : Option String
  icon : Option String
  isDefault : Option Bool
deriving DecidableEq, Repr

/-- Input of `updateCollection` after zod parsing. -/
structure UpdateCollectionInput where
  id : String
  name : Option String
  description : Option String
  icon : Option String
  isDefault : Option Bool
deriving DecidableEq, Repr

/-- Input of `createPoem` after zod parsing. -/
structure CreatePoemInput where
  collectionId : Option String
  title : Option String
  form : Option String
  style : Option String
  language : Option String
  prompt : Option String
  body : String
  notes : Option String
  isFavorite : Option Bool
deriving DecidableEq, Repr

/-- Input of `updatePoem` after zod parsing. -/
structure UpdatePoemInput where
  id : String
  collectionId : Option String
  title : Option String
  form : Option String
  style : Option String
  language : Option String
  prompt : Option String
  body : Option String
  notes : Option String
  isFavorite : Option Bool
deriving DecidableEq, Repr

/-- Input of `deletePoem` after zod parsing. -/
structure DeletePoemInput where
  id : String
deriving DecidableEq, Repr

/-- Input of `listPoems` after zod parsing; `favoritesOnly` already
carries its zod default `false`. -/
structure ListPoemsInput where
  collectionId : Option String
  favoritesOnly : Bool
deriving DecidableEq, Repr

/-- The success payload of an operation (`data` of the returned
object).  Updates return the first row the `.returning()` clause
produced, which in JavaScript is `undefined` when no row matched, hence
the `Option`. -/
inductive Output where
  | createdCollection (collection : Collection)
  | updatedCollection (collection : Option Collection)
  | collectionList (items : List Collection) (total : Nat)
  | createdPoem (poem : Poem)
  | updatedPoem (poem : Option Poem)
  | poemList (items : List Poem) (total : Nat)
  | deleted
deriving DecidableEq, Repr

/-- A handler step: next store state paired with the thrown error or
the success payload. -/
abbrev HResult := State × Except ActionError Output

/-- `createCollection` handler (index.ts lines 43–65). -/
def createCollection (ctx : Ctx) (env : Env) (input : CreateCollectionInput)
    (s : State) : HResult :=
  match requireUser ctx with
  | .error e => (s, .error e)
  | .ok user =>
    let now := env.now
    let collection : Collection :=
      { id := env.freshId
        userId := user.id
        name := input.name
        description := input.description
        icon := input.icon
        isDefault := input.isDefault.getD false
        createdAt := now
        updatedAt := now }
    ({ s with collections := s.collections ++ [collection] },
      .ok (.createdCollection collection))

/-- The row produced by `updateCollection`'s `.set({...})` on one
matched row: supplied fields overwrite, omitted fields keep their
stored value, `updatedAt` is always set (index.ts lines 91–97). -/
def applyCollectionPatch (input : UpdateCollectionInput) (now : Nat)
    (c : Collection) : Collection :=
  { c with
    name := match input.name with | some v => v | none => c.name
    description := match input.description with | some v => some v | none => c.description
    icon := match input.icon with | some v => some v | none => c.icon
    isDefault := match input.isDefault with | some v => v | none => c.isDefault
    updatedAt := now }

/-- `updateCollection` handler (index.ts lines 85–105).  Note the
update's `where` clause matches on id alone; ownership was checked
beforehand. -/
def updateCollection (ctx : Ctx) (env : Env) (input : UpdateCollectionInput)
    (s : State) : HResult :=
  match requireUser ctx with
  | .error e => (s, .error e)
  | .ok user =>
    match getOwnedCollection s input.id user.id with
    | .error e => (s, .error e)
    | .ok _ =>
      let newCollections := s.collections.map fun c =>
        if c.id == input.id then applyCollectionPatch input env.now c else c
      let returned := newCollections.find? (fun c => c.id == input.id)
      ({ s with collections := newCollections },
        .ok (.updatedCollection returned))

/-- `listCollections` handler (index.ts lines 110–122). -/
def listCollections (ctx : Ctx) (_env : Env) (s : State) : HResult :=
  match requireUser ctx with
  | .error e => (s, .error e)
  | .ok user =>
    let collections := s.collections.filter (fun c => c.userId == user.id)
    (s, .ok (.collectionList collections collections.length))

/-- `createPoem` handler (index.ts lines 137–167).  The ownership check
runs only under JavaScript truthiness of `input.collectionId`, so an
empty-string id skips it; the inserted row stores
`input.collectionId ?? null`, which leaves an empty string intact. -/
def createPoem (ctx : Ctx) (env : Env) (input : CreatePoemInput)
    (s : State) : HResult :=
  match requireUser ctx with
  | .error e => (s, .error e)
  | .ok user =>
    let check : Except ActionError Unit :=
      if truthy input.collectionId then
        match input.collectionId with
        | some cid => (getOwnedCollection s cid user.id).map fun _ => ()
        | none => .ok ()
      else .ok ()
    match check with
    | .error e => (s, .error e)
    | .ok _ =>
      let now := env.now
      let poem : Poem :=
        { id := env.freshId
          collectionId := input.collectionId
          userId := user.id
          title := input.title
          form := input.form
          style := input.style
          language := input.language
          prompt := input.prompt
          body := input.body
          notes := input.notes
          isFavorite := input.isFavorite.getD false
          createdAt := now
          updatedAt := now }
      ({ s with poems := s.poems ++ [poem] }, .ok (.createdPoem poem))

/-- The row produced by `updatePoem`'s `.set({...})` on one matched
row (index.ts lines 218–229). -/
def applyPoemPatch (input : UpdatePoemInput) (now : Nat) (p : Poem) : Poem :=
  { p with
    collectionId := match input.collectionId with | some v => some v | none => p.collectionId
    title := match input.title with | some v => some v | none => p.title
    form := match input.form with | some v => some v | none => p.form
    style := match input.style with | some v => some v | none => p.style
    language := match input.language with | some v => some v | none => p.language
    prompt := match input.prompt with | some v => some v | none => p.prompt
    body := match input.body with | some v => v | none => p.body
    notes := match input.notes with | some v => some v | none => p.notes
    isFavorite := match input.isFavorite with | some v => v | none => p.isFavorite
    updatedAt := now }

/-- `updatePoem` handler (index.ts lines 197–237): confirm the poem
exists and is the caller's, validate a supplied collection id (`null`
never arrives, the schema admits only strings), then apply the partial
update to every row with the target id. -/
def updatePoem (ctx : Ctx) (env : Env) (input : UpdatePoemInput)
    (s : State) : HResult :=
  match requireUser ctx with
  | .error e => (s, .error e)
  | .ok user =>
    match s.poems.find? (fun p => p.id == input.id && p.userId == user.id) with
    | none => (s, .error ⟨.notFound, "Poem not found."⟩)
    | some _ =>
      let check : Except ActionError Unit :=
        match input.collectionId with
        | some cid => (getOwnedCollection s cid user.id).map fun _ => ()
        | none => .ok ()
      match check with
      | .error e => (s, .error e)
      | .ok _ =>
        let newPoems := s.poems.map fun p =>
          if p.id == input.id then applyPoemPatch input env.now p else p
        let returned := newPoems.find? (fun p => p.id == input.id)
        ({ s with poems := newPoems }, .ok (.updatedPoem returned))

/-- `deletePoem` handler (index.ts lines 242–257): delete where both id
and user id match, then fail `NOT_FOUND` when zero rows were
affected. -/
def deletePoem (ctx : Ctx) (_env : Env) (input : DeletePoemInput)
    (s : State) : HResult :=
  match requireUser ctx with
  | .error e => (s, .error e)
  | .ok user =>
    let remaining := s.poems.filter (fun p => !(p.id == input.id && p.userId == user.id))
    let rowsAffected := s.poems.length - remaining.length
    let s2 : State := { s with poems := remaining }
    if rowsAffected == 0 then
      (s2, .error ⟨.notFound, "Poem not found."⟩)
    else
      (s2, .ok .deleted)

/-- `listPoems` handler (index.ts lines 267–286): always filter by the
caller, optionally (under truthiness) validate and filter by a
collection id, optionally filter to favorites. -/
def listPoems (ctx : Ctx) (_env : Env) (input : Option ListPoemsInput)
    (s : State) : HResult :=
  match requireUser ctx with
  | .error e => (s, .error e)
  | .ok user =>
    let check : Except ActionError Unit :=
      if truthy (input.bind ListPoemsInput.collectionId) then
        match input.bind ListPoemsInput.collectionId with
        | some cid => (getOwnedCollection s cid user.id).map fun _ => ()
        | none => .ok ()
      else .ok ()
    match check with
    | .error e => (s, .error e)
    | .ok _ =>
      let poems := s.poems.filter fun p =>
        p.userId == user.id
          && (if truthy (input.bind ListPoemsInput.collectionId) then
                p.collectionId == input.bind ListPoemsInput.collectionId
              else true)
          && (if (input.map ListPoemsInput.favoritesOnly).getD false then
                p.isFavorite else true)
      (s, .ok (.poemList poems poems.length))

/-- A request to one of the seven operations, carrying its parsed
input.  `listCollections` takes `z.object({}).optional()`, modelled as
an optional unit; `listPoems`'s whole input object is optional. -/
inductive Request where
  | createCollection (input : CreateCollectionInput)
  | updateCollection (input : UpdateCollectionInput)
  | listCollections (input : Option Unit)
  | createPoem (input : CreatePoemInput)
  | updatePoem (input : UpdatePoemInput)
  | deletePoem (input : DeletePoemInput)
  | listPoems (input : Option ListPoemsInput)
deriving DecidableEq, Repr

/-- The zod input schemas (index.ts lines 36–42, 69–84, 109, 126–136,
171–196, 241, 261–266): min-length-1 constraints and the two
at-least-one-mutable-field refinements.  Runs before the handler. -/
def validateRequest : Request → Bool
  | .createCollection i => 1 ≤ i.name.length
  | .updateCollection i =>
      1 ≤ i.id.length
        && (match i.name with | some v => 1 ≤ v.length | none => true)
        && (i.name.isSome || i.description.isSome || i.icon.isSome || i.isDefault.isSome)
  | .listCollections _ => true
  | .createPoem i => 1 ≤ i.body.length
  | .updatePoem i =>
      1 ≤ i.id.length
        && (i.collectionId.isSome || i.title.isSome || i.form.isSome
            || i.style.isSome || i.language.isSome || i.prompt.isSome
            || i.body.isSome || i.notes.isSome || i.isFavorite.isSome)
  | .deletePoem i => 1 ≤ i.id.length
  | .listPoems _ => true

/-- One full operation as the framework executes it: validate the input
shape, then run the handler; a validation failure never reaches the
handler or the store. -/
def run (req : Request) (ctx : Ctx) (env : Env) (s : State) : HResult :=
  if validateRequest req then
    match req with
    | .createCollection i => createCollection ctx env i s
    | .updateCollection i => updateCollection ctx env i s
    | .listCollections _ => listCollections ctx env s
    | .createPoem i => createPoem ctx env i s
    | .updatePoem i => updatePoem ctx env i s
    | .deletePoem i => deletePoem ctx env i s
    | .listPoems i => listPoems ctx env i s
  else
    (s, .error ⟨.badRequest, "Failed to validate input."⟩)

/-- Spec-side statement of partial-update semantics for a collection
row (spec 4.4): supplied fields overwrite, omitted fields keep their
previous value and are not nulled, identity/owner/creation data are
untouched, and the update timestamp is refreshed. -/
def CollectionPatched (i : UpdateCollectionInput) (now : Nat)
    (old new : Collection) : Prop :=
  new.id = old.id ∧ new.userId = old.userId ∧ new.createdAt = old.createdAt ∧
  new.name = i.name.getD old.name ∧
  new.description = (match i.description with | some v => some v | none => old.description) ∧
  new.icon = (match i.icon with | some v => some v | none => old.icon) ∧
  new.isDefault = i.isDefault.getD old.isDefault ∧
  new.updatedAt = now

/-- Spec-side statement of partial-update semantics for a poem row
(spec 4.5): supplied fields overwrite, omitted fields keep their
previous value and are not nulled, identity/owner/creation data are
untouched, and the update timestamp is refreshed. -/
def PoemPatched (i : UpdatePoemInput) (now : Nat) (old new : Poem) : Prop :=
  new.id = old.id ∧ new.userId = old.userId ∧ new.createdAt = old.createdAt ∧
  new.collectionId = (match i.collectionId with | some v => some v | none => old.collectionId) ∧
  new.title = (match i.title with | some v => some v | none => old.title) ∧
  new.form = (match i.form with | some v => some v | none => old.form) ∧
  new.style = (match i.style with | some v => some v | none => old.style) ∧
  new.language = (match i.language with | some v => some v | none => old.language) ∧
  new.prompt = (match i.prompt with | some v => some v | none => old.prompt) ∧
  new.body = i.body.getD old.body ∧
  new.notes = (match i.notes with | some v => some v | none => old.notes) ∧
  new.isFavorite = i.isFavorite.getD old.isFavorite ∧
  new.updatedAt = now

/-- Provenance of a poem row after an operation: it is either derived
from a pre-state row with the same id without un-filing it (if the old
row referenced a collection, so does the new one), or it is the freshly
inserted row. -/
def PoemOrigin (s : State) (env : Env) (l : List Poem) : Prop :=
  ∀ q ∈ l, (∃ x ∈ s.poems, q.id = x.id ∧ (x.collectionId ≠ none → q.collectionId ≠ none))
    ∨ q.id = env.freshId

/-! ## Theorems -/

/-- C8: the claim as stated is false: an unauthenticated request whose
input fails schema validation is rejected with the validation error,
not with `UNAUTHORIZED` — zod runs before the handler, so the
authorization gate is not the operation's first step.  Concrete input:
`updateCollection` with id `"c1"` and zero mutable fields, no user on
the context. -/
theorem unauthenticated_invalid_input_not_unauthorized :
    run (.updateCollection ⟨"c1", none, none, none, none⟩) ⟨none⟩ ⟨"f", 0⟩ ⟨[], []⟩
      = (⟨[], []⟩, .error ⟨.badRequest, "Failed to validate input."⟩) ∧
    (run (.updateCollection ⟨"c1", none, none, none, none⟩) ⟨none⟩ ⟨"f", 0⟩ ⟨[], []⟩).2
      ≠ .error ⟨.unauthorized, "You must be signed in to perform this action."⟩ := by
  refine ⟨rfl, ?_⟩
  intro h
  rw [show (run (.updateCollection ⟨"c1", none, none, none, none⟩) ⟨none⟩ ⟨"f", 0⟩
      ⟨[], []⟩).2 = Except.error ⟨.badRequest, "Failed to validate input."⟩ from rfl] at h
  simp at h

/-- C8 (amended): for every one of the seven operations, if the input
passes schema validation and the request context carries no
authenticated user, the operation fails `UNAUTHORIZED` and the store is
left unchanged. -/
theorem unauthenticated_valid_input_fails_unauthorized
    (req : Request) (ctx : Ctx) (env : Env) (s : State)
    (hu : ctx.user = none) (hv : validateRequest req = true) :
    run req ctx env s
      = (s, .error ⟨.unauthorized, "You must be signed in to perform this action."⟩) := by
  cases req <;>
    simp [run, hv, createCollection, updateCollection, listCollections,
      createPoem, updatePoem, deletePoem, listPoems, requireUser, hu]

/-- C8 witness: `listCollections` with no input and no user. -/
theorem unauthenticated_valid_input_fails_unauthorized_witness :
    run (.listCollections none) ⟨none⟩ ⟨"f", 0⟩ ⟨[], []⟩
      = (⟨[], []⟩, .error ⟨.unauthorized, "You must be signed in to perform this action."⟩) :=
  unauthenticated_valid_input_fails_unauthorized (.listCollections none) ⟨none⟩ ⟨"f", 0⟩
    ⟨[], []⟩ rfl rfl

/-- C4: an update request that supplies a target id but none of the
mutable fields is rejected by input validation with the same result for
every store state and every context — the handler is never entered, so
no storage read or write occurs and the store is returned unchanged.
Holds for both `updateCollection` and `updatePoem`. -/
theorem update_zero_fields_rejected_before_storage :
    (∀ (i : UpdateCollectionInput) (ctx : Ctx) (env : Env) (s : State),
      i.name = none → i.description = none → i.icon = none → i.isDefault = none →
      run (.updateCollection i) ctx env s
        = (s, .error ⟨.badRequest, "Failed to validate input."⟩)) ∧
    (∀ (i : UpdatePoemInput) (ctx : Ctx) (env : Env) (s : State),
      i.collectionId = none → i.title = none → i.form = none → i.style = none →
      i.language = none → i.prompt = none → i.body = none → i.notes = none →
      i.isFavorite = none →
      run (.updatePoem i) ctx env s
        = (s, .error ⟨.badRequest, "Failed to validate input."⟩)) := by
  constructor <;> intro i ctx env s <;> intros <;>
    simp [run, validateRequest, *]

/-- C4 witness: both rejections at concrete inputs, with a signed-in
user and a nonempty store. -/
theorem update_zero_fields_rejected_before_storage_witness :
    run (.updateCollection ⟨"c1", none, none, none, none⟩) ⟨some ⟨"u1"⟩⟩ ⟨"f", 7⟩
        ⟨[⟨"c1", "u1", "Nature", none, none, false, 1, 1⟩], []⟩
      = (⟨[⟨"c1", "u1", "Nature", none, none, false, 1, 1⟩], []⟩,
          .error ⟨.badRequest, "Failed to validate input."⟩) ∧
    run (.updatePoem ⟨"p1", none, none, none, none, none, none, none, none, none⟩)
        ⟨some ⟨"u1"⟩⟩ ⟨"f", 7⟩ ⟨[], []⟩
      = (⟨[], []⟩, .error ⟨.badRequest, "Failed to validate input."⟩) :=
  ⟨update_zero_fields_rejected_before_storage.1 ⟨"c1", none, none, none, none⟩
      ⟨some ⟨"u1"⟩⟩ ⟨"f", 7⟩ ⟨[⟨"c1", "u1", "Nature", none, none, false, 1, 1⟩], []⟩
      rfl rfl rfl rfl,
    update_zero_fields_rejected_before_storage.2
      ⟨"p1", none, none, none, none, none, none, none, none, none⟩
      ⟨some ⟨"u1"⟩⟩ ⟨"f", 7⟩ ⟨[], []⟩ rfl rfl rfl rfl rfl rfl rfl rfl rfl⟩

/-- When no collection row matches both the id and the user id, the
ownership lookup's `find?` comes up empty. -/
theorem find_owned_none {l : List Collection} {cid uid : String}
    (h : ∀ c ∈ l, ¬(c.id = cid ∧ c.userId = uid)) :
    l.find? (fun c => c.id == cid && c.userId == uid) = none := by
  rw [List.find?_eq_none]
  intro c hc hcontra
  simp only [Bool.and_eq_true, beq_iff_eq] at hcontra
  exact h c hc hcontra

/-- C1: the claim as stated is false: a supplied collection id that is
the empty string is not validated — JavaScript truthiness skips the
ownership check — and the poem is inserted with `collectionId = ""`
even though the caller owns no collection with that id (the store holds
no collections at all). -/
theorem createPoem_empty_collectionId_skips_validation :
    run (.createPoem ⟨some "", none, none, none, none, none, "b", none, none⟩)
        ⟨some ⟨"u1"⟩⟩ ⟨"fresh-id", 100⟩ ⟨[], []⟩
      = (⟨[], [⟨"fresh-id", some "", "u1", none, none, none, none, none, "b",
            none, false, 100, 100⟩]⟩,
          .ok (.createdPoem ⟨"fresh-id", some "", "u1", none, none, none, none,
            none, "b", none, false, 100, 100⟩)) := by
  rfl

/-- C1 (amended): for every createPoem request in which a *nonempty*
collection id is supplied, the handler validates it via the Ownership
Resolver before the insert: if no collection with that id owned by the
caller exists, the operation fails `NOT_FOUND` and the store — in
particular the poems table — is unchanged.  (An empty-string id skips
the check because the guard uses JavaScript truthiness.) -/
theorem createPoem_nonempty_unowned_collectionId_fails
    (i : CreatePoemInput) (ctx : Ctx) (env : Env) (s : State) (u : User) (cid : String)
    (hu : ctx.user = some u) (hcid : i.collectionId = some cid) (hne : cid ≠ "")
    (hbody : 1 ≤ i.body.length)
    (hnown : ∀ c ∈ s.collections, ¬(c.id = cid ∧ c.userId = u.id)) :
    run (.createPoem i) ctx env s = (s, .error ⟨.notFound, "Collection not found."⟩) := by
  have hfind := find_owned_none hnown
  simp [run, validateRequest, hbody, createPoem, requireUser, hu, truthy, hcid, hne,
    getOwnedCollection, hfind, Except.map]

/-- C1 witness: a nonempty, unowned collection id on an empty store. -/
theorem createPoem_nonempty_unowned_collectionId_fails_witness :
    run (.createPoem ⟨some "c9", none, none, none, none, none, "b", none, none⟩)
        ⟨some ⟨"u1"⟩⟩ ⟨"f", 0⟩ ⟨[], []⟩
      = (⟨[], []⟩, .error ⟨.notFound, "Collection not found."⟩) :=
  createPoem_nonempty_unowned_collectionId_fails
    ⟨some "c9", none, none, none, none, none, "b", none, none⟩
    ⟨some ⟨"u1"⟩⟩ ⟨"f", 0⟩ ⟨[], []⟩ ⟨"u1"⟩ "c9" rfl rfl (by decide) (by decide)
    (by simp)

/-- C2: the claim as stated is false: a listPoems request whose
`collectionId` is the empty string — an id the caller does not own (the
only stored collection has id `"c1"`) — does not fail `NOT_FOUND`; the
truthiness guard skips both the ownership check and the collection
filter, and the caller's poem is returned. -/
theorem listPoems_empty_collectionId_skips_validation :
    run (.listPoems (some ⟨some "", false⟩)) ⟨some ⟨"u1"⟩⟩ ⟨"f", 100⟩
        ⟨[⟨"c1", "u1", "Nature", none, none, false, 1, 1⟩],
         [⟨"p1", some "c1", "u1", some "T", none, none, none, none, "body",
           none, false, 1, 1⟩]⟩
      = (⟨[⟨"c1", "u1", "Nature", none, none, false, 1, 1⟩],
          [⟨"p1", some "c1", "u1", some "T", none, none, none, none, "body",
            none, false, 1, 1⟩]⟩,
          .ok (.poemList [⟨"p1", some "c1", "u1", some "T", none, none, none,
            none, "body", none, false, 1, 1⟩] 1)) := by
  rfl

/-- C2 (amended): for every listPoems request that supplies a
*nonempty* collectionId the caller does not own (including a
nonexistent id), the operation fails `NOT_FOUND` before any poem
filtering, leaving the store unchanged.  (An empty-string id skips the
check because the guard uses JavaScript truthiness.) -/
theorem listPoems_nonempty_unowned_collectionId_fails
    (inp : ListPoemsInput) (ctx : Ctx) (env : Env) (s : State) (u : User) (cid : String)
    (hu : ctx.user = some u) (hcid : inp.collectionId = some cid) (hne : cid ≠ "")
    (hnown : ∀ c ∈ s.collections, ¬(c.id = cid ∧ c.userId = u.id)) :
    run (.listPoems (some inp)) ctx env s
      = (s, .error ⟨.notFound, "Collection not found."⟩) := by
  have hfind := find_owned_none hnown
  simp [run, validateRequest, listPoems, requireUser, hu, truthy, hcid, hne,
    getOwnedCollection, hfind, Except.map]

/-- C2 witness: a nonempty, unowned collection id with one stored
collection belonging to a different user. -/
theorem listPoems_nonempty_unowned_collectionId_fails_witness :
    run (.listPoems (some ⟨some "c1", false⟩)) ⟨some ⟨"u2"⟩⟩ ⟨"f", 0⟩
        ⟨[⟨"c1", "u1", "Nature", none, none, false, 1, 1⟩], []⟩
      = (⟨[⟨"c1", "u1", "Nature", none, none, false, 1, 1⟩], []⟩,
          .error ⟨.notFound, "Collection not found."⟩) :=
  listPoems_nonempty_unowned_collectionId_fails ⟨some "c1", false⟩
    ⟨some ⟨"u2"⟩⟩ ⟨"f", 0⟩ ⟨[⟨"c1", "u1", "Nature", none, none, false, 1, 1⟩], []⟩
    ⟨"u2"⟩ "c1" rfl rfl (by decide) (by decide)

/-- C3: an updatePoem request that supplies a collectionId naming a
collection not owned by the caller fails `NOT_FOUND` (either because
the poem lookup already failed, or because the collection ownership
check failed) and the store — in particular the targeted poem row, its
`updatedAt` included — is left completely unchanged. -/
theorem updatePoem_unowned_collectionId_fails
    (i : UpdatePoemInput) (ctx : Ctx) (env : Env) (s : State) (u : User) (cid : String)
    (hu : ctx.user = some u) (hid : 1 ≤ i.id.length) (hcid : i.collectionId = some cid)
    (hnown : ∀ c ∈ s.collections, ¬(c.id = cid ∧ c.userId = u.id)) :
    run (.updatePoem i) ctx env s = (s, .error ⟨.notFound, "Poem not found."⟩) ∨
    run (.updatePoem i) ctx env s = (s, .error ⟨.notFound, "Collection not found."⟩) := by
  have hfind := find_owned_none hnown
  cases hfindp : s.poems.find? (fun p => p.id == i.id && p.userId == u.id) with
  | none =>
    left
    simp [run, validateRequest, hid, hcid, updatePoem, requireUser, hu, hfindp]
  | some p =>
    right
    simp [run, validateRequest, hid, hcid, updatePoem, requireUser, hu, hfindp,
      getOwnedCollection, hfind, Except.map]

/-- C3 witness: the caller owns the poem but the supplied collection id
names a collection owned by someone else. -/
theorem updatePoem_unowned_collectionId_fails_witness :
    run (.updatePoem ⟨"p1", some "c2", none, none, none, none, none, none, none, none⟩)
        ⟨some ⟨"u1"⟩⟩ ⟨"f", 9⟩
        ⟨[⟨"c2", "u2", "Other", none, none, false, 1, 1⟩],
         [⟨"p1", none, "u1", none, none, none, none, none, "body", none, false, 1, 1⟩]⟩
      = (⟨[⟨"c2", "u2", "Other", none, none, false, 1, 1⟩],
          [⟨"p1", none, "u1", none, none, none, none, none, "body", none, false, 1, 1⟩]⟩,
          .error ⟨.notFound, "Poem not found."⟩) ∨
    run (.updatePoem ⟨"p1", some "c2", none, none, none, none, none, none, none, none⟩)
        ⟨some ⟨"u1"⟩⟩ ⟨"f", 9⟩
        ⟨[⟨"c2", "u2", "Other", none, none, false, 1, 1⟩],
         [⟨"p1", none, "u1", none, none, none, none, none, "body", none, false, 1, 1⟩]⟩
      = (⟨[⟨"c2", "u2", "Other", none, none, false, 1, 1⟩],
          [⟨"p1", none, "u1", none, none, none, none, none, "body", none, false, 1, 1⟩]⟩,
          .error ⟨.notFound, "Collection not found."⟩) :=
  updatePoem_unowned_collectionId_fails
    ⟨"p1", some "c2", none, none, none, none, none, none, none, none⟩
    ⟨some ⟨"u1"⟩⟩ ⟨"f", 9⟩
    ⟨[⟨"c2", "u2", "Other", none, none, false, 1, 1⟩],
     [⟨"p1", none, "u1", none, none, none, none, none, "body", none, false, 1, 1⟩]⟩
    ⟨"u1"⟩ "c2" rfl (by decide) rfl (by decide)

/-- Inversion of a successful `createCollection`: the returned row is
exactly the row the handler builds from a signed-in user, the fresh id
and the clock. -/
theorem createCollection_ok_inv {i : CreateCollectionInput} {ctx : Ctx} {env : Env}
    {s : State} {c : Collection}
    (hok : (run (.createCollection i) ctx env s).2 = .ok (.createdCollection c)) :
    ∃ u, ctx.user = some u ∧
      c = { id := env.freshId, userId := u.id, name := i.name,
            description := i.description, icon := i.icon,
            isDefault := i.isDefault.getD false,
            createdAt := env.now, updatedAt := env.now } := by
  by_cases hv : validateRequest (.createCollection i) = true
  · cases hctx : ctx.user with
    | none => simp [run, hv, createCollection, requireUser, hctx] at hok
    | some u =>
      simp [run, hv, createCollection, requireUser, hctx] at hok
      exact ⟨u, rfl, hok.symm⟩
  · simp [run, hv] at hok

/-- Inversion of a successful `createPoem`: the returned row is exactly
the row the handler builds; in particular `collectionId` is copied from
the input (`?? null` only replaces an absent value). -/
theorem createPoem_ok_inv {i : CreatePoemInput} {ctx : Ctx} {env : Env}
    {s : State} {p : Poem}
    (hok : (run (.createPoem i) ctx env s).2 = .ok (.createdPoem p)) :
    ∃ u, ctx.user = some u ∧
      p = { id := env.freshId, collectionId := i.collectionId, userId := u.id,
            title := i.title, form := i.form, style := i.style,
            language := i.language, prompt := i.prompt, body := i.body,
            notes := i.notes, isFavorite := i.isFavorite.getD false,
            createdAt := env.now, updatedAt := env.now } := by
  by_cases hv : validateRequest (.createPoem i) = true
  · cases hctx : ctx.user with
    | none => simp [run, hv, createPoem, requireUser, hctx] at hok
    | some u =>
      cases htr : truthy i.collectionId with
      | false =>
        simp [run, hv, createPoem, requireUser, hctx, htr] at hok
        exact ⟨u, rfl, hok.symm⟩
      | true =>
        cases hci : i.collectionId with
        | none => simp [truthy, hci] at htr
        | some cid =>
          rw [hci] at htr
          cases hg : getOwnedCollection s cid u.id with
          | error e =>
            simp [run, hv, createPoem, requireUser, hctx, htr, hci, hg, Except.map] at hok
          | ok _ =>
            simp [run, hv, createPoem, requireUser, hctx, htr, hci, hg, Except.map] at hok
            exact ⟨u, rfl, hok.symm⟩
  · simp [run, hv] at hok

/-- C5: a row returned by a successful createCollection or createPoem
carries the authenticated caller's id as its owning-user id and the
freshly generated UUID as its identity.  (Neither input schema admits
an id or user-id field — zod strips unknown keys — so the quantification
over all parsed inputs covers every attempt to supply them.) -/
theorem create_stamps_caller_and_fresh_identity :
    (∀ (i : CreateCollectionInput) (ctx : Ctx) (env : Env) (s : State) (u : User)
        (c : Collection), ctx.user = some u →
      (run (.createCollection i) ctx env s).2 = .ok (.createdCollection c) →
      c.userId = u.id ∧ c.id = env.freshId) ∧
    (∀ (i : CreatePoemInput) (ctx : Ctx) (env : Env) (s : State) (u : User)
        (p : Poem), ctx.user = some u →
      (run (.createPoem i) ctx env s).2 = .ok (.createdPoem p) →
      p.userId = u.id ∧ p.id = env.freshId) := by
  constructor
  · intro i ctx env s u c hu hok
    obtain ⟨u2, hu2, hc⟩ := createCollection_ok_inv hok
    rw [hu] at hu2
    cases hu2
    rw [hc]
    exact ⟨rfl, rfl⟩
  · intro i ctx env s u p hu hok
    obtain ⟨u2, hu2, hp⟩ := createPoem_ok_inv hok
    rw [hu] at hu2
    cases hu2
    rw [hp]
    exact ⟨rfl, rfl⟩

/-- C5 witness: both create operations at concrete inputs on the empty
store. -/
theorem create_stamps_caller_and_fresh_identity_witness :
    ((⟨"f1", "u1", "Nature", none, none, false, 3, 3⟩ : Collection).userId = "u1" ∧
      (⟨"f1", "u1", "Nature", none, none, false, 3, 3⟩ : Collection).id = "f1") ∧
    ((⟨"f2", none, "u1", none, none, none, none, none, "b", none, false, 3, 3⟩ :
        Poem).userId = "u1" ∧
      (⟨"f2", none, "u1", none, none, none, none, none, "b", none, false, 3, 3⟩ :
        Poem).id = "f2") :=
  ⟨create_stamps_caller_and_fresh_identity.1 ⟨"Nature", none, none, none⟩
      ⟨some ⟨"u1"⟩⟩ ⟨"f1", 3⟩ ⟨[], []⟩ ⟨"u1"⟩
      ⟨"f1", "u1", "Nature", none, none, false, 3, 3⟩ rfl rfl,
    create_stamps_caller_and_fresh_identity.2
      ⟨none, none, none, none, none, none, "b", none, none⟩
      ⟨some ⟨"u1"⟩⟩ ⟨"f2", 3⟩ ⟨[], []⟩ ⟨"u1"⟩
      ⟨"f2", none, "u1", none, none, none, none, none, "b", none, false, 3, 3⟩ rfl rfl⟩

/-- C9: every row returned by a successful createCollection or
createPoem has `createdAt` and `updatedAt` both equal to the same
creation-time clock reading, and its boolean flag (`isDefault` for
collections, `isFavorite` for poems) is `false` when the caller omitted
it. -/
theorem create_timestamps_equal_and_flags_default :
    (∀ (i : CreateCollectionInput) (ctx : Ctx) (env : Env) (s : State)
        (c : Collection),
      (run (.createCollection i) ctx env s).2 = .ok (.createdCollection c) →
      c.createdAt = env.now ∧ c.updatedAt = env.now ∧
        (i.isDefault = none → c.isDefault = false)) ∧
    (∀ (i : CreatePoemInput) (ctx : Ctx) (env : Env) (s : State) (p : Poem),
      (run (.createPoem i) ctx env s).2 = .ok (.createdPoem p) →
      p.createdAt = env.now ∧ p.updatedAt = env.now ∧
        (i.isFavorite = none → p.isFavorite = false)) := by
  constructor
  · intro i ctx env s c hok
    obtain ⟨u, _, hc⟩ := createCollection_ok_inv hok
    rw [hc]
    refine ⟨rfl, rfl, fun h => ?_⟩
    simp [h]
  · intro i ctx env s p hok
    obtain ⟨u, _, hp⟩ := createPoem_ok_inv hok
    rw [hp]
    refine ⟨rfl, rfl, fun h => ?_⟩
    simp [h]

/-- C9 witness: both create operations at concrete inputs with the
flags omitted. -/
theorem create_timestamps_equal_and_flags_default_witness :
    ((⟨"f1", "u1", "Nature", none, none, false, 3, 3⟩ : Collection).createdAt = 3 ∧
      (⟨"f1", "u1", "Nature", none, none, false, 3, 3⟩ : Collection).updatedAt = 3 ∧
      ((none : Option Bool) = none →
        (⟨"f1", "u1", "Nature", none, none, false, 3, 3⟩ : Collection).isDefault = false)) ∧
    ((⟨"f2", none, "u1", none, none, none, none, none, "b", none, false, 3, 3⟩ :
        Poem).createdAt = 3 ∧
      (⟨"f2", none, "u1", none, none, none, none, none, "b", none, false, 3, 3⟩ :
        Poem).updatedAt = 3 ∧
      ((none : Option Bool) = none →
        (⟨"f2", none, "u1", none, none, none, none, none, "b", none, false, 3, 3⟩ :
          Poem).isFavorite = false)) :=
  ⟨create_timestamps_equal_and_flags_default.1 ⟨"Nature", none, none, none⟩
      ⟨some ⟨"u1"⟩⟩ ⟨"f1", 3⟩ ⟨[], []⟩
      ⟨"f1", "u1", "Nature", none, none, false, 3, 3⟩ rfl,
    create_timestamps_equal_and_flags_default.2
      ⟨none, none, none, none, none, none, "b", none, none⟩
      ⟨some ⟨"u1"⟩⟩ ⟨"f2", 3⟩ ⟨[], []⟩
      ⟨"f2", none, "u1", none, none, none, none, none, "b", none, false, 3, 3⟩ rfl⟩

/-- C6: deletePoem removes exactly the rows matching both the poem id
and the caller's user id; when no row matches — whether the id is
nonexistent or the poem belongs to another user — the operation fails
`NOT_FOUND` with the store unchanged, and the two causes produce the
one identical outcome, determined solely by the delete attempt
affecting zero rows. -/
theorem deletePoem_matches_owner_or_notFound
    (i : DeletePoemInput) (ctx : Ctx) (env : Env) (s : State) (u : User)
    (hu : ctx.user = some u) (hid : 1 ≤ i.id.length) :
    ((¬ ∃ p ∈ s.poems, p.id = i.id ∧ p.userId = u.id) →
      run (.deletePoem i) ctx env s = (s, .error ⟨.notFound, "Poem not found."⟩)) ∧
    ((∃ p ∈ s.poems, p.id = i.id ∧ p.userId = u.id) →
      run (.deletePoem i) ctx env s
        = ({ s with
              poems := s.poems.filter (fun p => !(p.id == i.id && p.userId == u.id)) },
            .ok .deleted)) := by
  constructor
  · intro hno
    have hall : ∀ p ∈ s.poems, ((!(p.id == i.id)) || (!(p.userId == u.id))) = true := by
      intro p hp
      cases hbid : p.id == i.id with
      | false => simp [hbid]
      | true =>
        cases hbuid : p.userId == u.id with
        | false => simp [hbuid]
        | true =>
          exact absurd ⟨p, hp, by simpa using hbid, by simpa using hbuid⟩ hno
    have hfilter : s.poems.filter (fun p => (!(p.id == i.id)) || (!(p.userId == u.id)))
        = s.poems := List.filter_eq_self.mpr hall
    simp [run, validateRequest, hid, deletePoem, requireUser, hu, hfilter]
  · rintro ⟨p, hp, hpid, hpuid⟩
    have hmem2 : ((!(p.id == i.id)) || (!(p.userId == u.id))) = false := by
      simp [hpid, hpuid]
    have hle := List.length_filter_le
      (fun q : Poem => (!(q.id == i.id)) || (!(q.userId == u.id))) s.poems
    have hne : (s.poems.filter
        (fun q => (!(q.id == i.id)) || (!(q.userId == u.id)))).length
        ≠ s.poems.length := by
      intro heq
      have heqlist := (List.filter_sublist s.poems).eq_of_length heq
      have hq := (List.mem_filter.mp (heqlist.symm ▸ hp)).2
      rw [hmem2] at hq
      exact Bool.false_ne_true hq
    have hpos : ¬(s.poems.length - (s.poems.filter
        (fun q => (!(q.id == i.id)) || (!(q.userId == u.id)))).length = 0) := by
      omega
    simp [run, validateRequest, hid, deletePoem, requireUser, hu, hpos]

/-- C6 witness: a store holding one poem of another user; deleting it
as `u1` hits the zero-rows-affected branch, while deleting one's own
poem removes it. -/
theorem deletePoem_matches_owner_or_notFound_witness :
    ((¬ ∃ p ∈ ([⟨"p1", none, "u2", none, none, none, none, none, "b", none, false, 1, 1⟩] :
        List Poem), p.id = "p1" ∧ p.userId = "u1") →
      run (.deletePoem ⟨"p1"⟩) ⟨some ⟨"u1"⟩⟩ ⟨"f", 5⟩
          ⟨[], [⟨"p1", none, "u2", none, none, none, none, none, "b", none, false, 1, 1⟩]⟩
        = (⟨[], [⟨"p1", none, "u2", none, none, none, none, none, "b", none, false, 1, 1⟩]⟩,
            .error ⟨.notFound, "Poem not found."⟩)) ∧
    ((∃ p ∈ ([⟨"p1", none, "u2", none, none, none, none, none, "b", none, false, 1, 1⟩] :
        List Poem), p.id = "p1" ∧ p.userId = "u1") →
      run (.deletePoem ⟨"p1"⟩) ⟨some ⟨"u1"⟩⟩ ⟨"f", 5⟩
          ⟨[], [⟨"p1", none, "u2", none, none, none, none, none, "b", none, false, 1, 1⟩]⟩
        = (⟨[], List.filter (fun p => !(p.id == "p1" && p.userId == "u1"))
              [⟨"p1", none, "u2", none, none, none, none, none, "b", none, false, 1, 1⟩]⟩,
            .ok .deleted)) :=
  deletePoem_matches_owner_or_notFound ⟨"p1"⟩ ⟨some ⟨"u1"⟩⟩ ⟨"f", 5⟩
    ⟨[], [⟨"p1", none, "u2", none, none, none, none, none, "b", none, false, 1, 1⟩]⟩
    ⟨"u1"⟩ rfl (by decide)

/-- The handler's patch realizes the spec's partial-update semantics on
collection rows. -/
theorem applyCollectionPatch_spec (i : UpdateCollectionInput) (now : Nat)
    (c : Collection) : CollectionPatched i now c (applyCollectionPatch i now c) := by
  refine ⟨rfl, rfl, rfl, ?_, ?_, ?_, ?_, rfl⟩
  · cases h : i.name <;> simp [applyCollectionPatch, h]
  · cases h : i.description <;> simp [applyCollectionPatch, h]
  · cases h : i.icon <;> simp [applyCollectionPatch, h]
  · cases h : i.isDefault <;> simp [applyCollectionPatch, h]

/-- The handler's patch realizes the spec's partial-update semantics on
poem rows. -/
theorem applyPoemPatch_spec (i : UpdatePoemInput) (now : Nat) (p : Poem) :
    PoemPatched i now p (applyPoemPatch i now p) := by
  refine ⟨rfl, rfl, rfl, ?_, ?_, ?_, ?_, ?_, ?_, ?_, ?_, ?_, rfl⟩
  · cases h : i.collectionId <;> simp [applyPoemPatch, h]
  · cases h : i.title <;> simp [applyPoemPatch, h]
  · cases h : i.form <;> simp [applyPoemPatch, h]
  · cases h : i.style <;> simp [applyPoemPatch, h]
  · cases h : i.language <;> simp [applyPoemPatch, h]
  · cases h : i.prompt <;> simp [applyPoemPatch, h]
  · cases h : i.body <;> simp [applyPoemPatch, h]
  · cases h : i.notes <;> simp [applyPoemPatch, h]
  · cases h : i.isFavorite <;> simp [applyPoemPatch, h]

/-- Patching a collection row does not change its id. -/
theorem applyCollectionPatch_id (i : UpdateCollectionInput) (now : Nat)
    (c : Collection) : (applyCollectionPatch i now c).id = c.id := rfl

/-- Patching a poem row does not change its id. -/
theorem applyPoemPatch_id (i : UpdatePoemInput) (now : Nat) (p : Poem) :
    (applyPoemPatch i now p).id = p.id := rfl

/-- Searching the patched collection table for the target id finds the
patched image of the row the search found before the patch. -/
theorem find_patched_collection (l : List Collection) (i : UpdateCollectionInput)
    (now : Nat) :
    (l.map (fun x => if x.id == i.id then applyCollectionPatch i now x else x)).find?
        (fun c => c.id == i.id)
      = (l.find? (fun c => c.id == i.id)).map
          (fun x => if x.id == i.id then applyCollectionPatch i now x else x) := by
  rw [List.find?_map]
  have hp : ((fun c : Collection => c.id == i.id) ∘
      (fun x => if x.id == i.id then applyCollectionPatch i now x else x))
      = fun c : Collection => c.id == i.id := by
    funext x
    by_cases hx : (x.id == i.id) = true
    · simp [Function.comp, hx, applyCollectionPatch_id]
    · simp [Function.comp, hx]
  rw [hp]

/-- Searching the patched poem table for the target id finds the
patched image of the row the search found before the patch. -/
theorem find_patched_poem (l : List Poem) (i : UpdatePoemInput) (now : Nat) :
    (l.map (fun x => if x.id == i.id then applyPoemPatch i now x else x)).find?
        (fun p => p.id == i.id)
      = (l.find? (fun p => p.id == i.id)).map
          (fun x => if x.id == i.id then applyPoemPatch i now x else x) := by
  rw [List.find?_map]
  have hp : ((fun p : Poem => p.id == i.id) ∘
      (fun x => if x.id == i.id then applyPoemPatch i now x else x))
      = fun p : Poem => p.id == i.id := by
    funext x
    by_cases hx : (x.id == i.id) = true
    · simp [Function.comp, hx, applyPoemPatch_id]
    · simp [Function.comp, hx]
  rw [hp]

/-- Semantics of a successful `updateCollection`: under unique ids, the
target row exists, is owned by the caller, is returned patched, and the
new table is the old one with exactly that row replaced. -/
theorem updateCollection_ok_sem (i : UpdateCollectionInput) (ctx : Ctx) (env : Env)
    (s : State) (u : User) (out : Output) (hu : ctx.user = some u)
    (huniq : ∀ a ∈ s.collections, ∀ b ∈ s.collections, a.id = b.id → a = b)
    (hok : (run (.updateCollection i) ctx env s).2 = .ok out) :
    ∃ c r, c ∈ s.collections ∧ c.id = i.id ∧ c.userId = u.id ∧
      out = .updatedCollection (some r) ∧ CollectionPatched i env.now c r ∧
      (run (.updateCollection i) ctx env s).1.poems = s.poems ∧
      (run (.updateCollection i) ctx env s).1.collections
        = s.collections.map (fun x => if x.id = i.id then r else x) := by
  by_cases hv : validateRequest (.updateCollection i) = true
  · have hrun : run (.updateCollection i) ctx env s = updateCollection ctx env i s := by
      simp [run, hv]
    rw [hrun] at hok ⊢
    cases hg : s.collections.find? (fun c => c.id == i.id && c.userId == u.id) with
    | none => simp [updateCollection, requireUser, hu, getOwnedCollection, hg] at hok
    | some c0 =>
      have hc0mem := List.mem_of_find?_eq_some hg
      have hc0p := List.find?_some hg
      simp only [Bool.and_eq_true, beq_iff_eq] at hc0p
      obtain ⟨hc0id, hc0uid⟩ := hc0p
      have hfind1 : s.collections.find? (fun c => c.id == i.id) = some c0 := by
        cases hx : s.collections.find? (fun c => c.id == i.id) with
        | none =>
          exfalso
          apply List.find?_eq_none.mp hx c0 hc0mem
          simp [hc0id]
        | some x1 =>
          have hx1mem := List.mem_of_find?_eq_some hx
          have hx1p := List.find?_some hx
          simp only [beq_iff_eq] at hx1p
          rw [huniq x1 hx1mem c0 hc0mem (hx1p.trans hc0id.symm)]
      have hstep : updateCollection ctx env i s =
          ({ s with collections := (s.collections.map (fun x =>
              if x.id == i.id then applyCollectionPatch i env.now x else x)) },
            .ok (.updatedCollection ((s.collections.map (fun x =>
              if x.id == i.id then applyCollectionPatch i env.now x else x)).find? (fun c =>
                c.id == i.id)))) := by
        simp [updateCollection, requireUser, hu, getOwnedCollection, hg]
      have hret : (s.collections.map
          (fun x => if x.id == i.id then applyCollectionPatch i env.now x else x)).find?
            (fun c => c.id == i.id) = some (applyCollectionPatch i env.now c0) := by
        rw [find_patched_collection, hfind1]
        simp [hc0id]
      rw [hstep] at hok
      simp only [hret] at hok
      refine ⟨c0, applyCollectionPatch i env.now c0, hc0mem, hc0id, hc0uid, ?_,
        applyCollectionPatch_spec i env.now c0, ?_, ?_⟩
      · exact (Except.ok.inj hok).symm
      · rw [hstep]
      · rw [hstep]
        apply List.map_congr_left
        intro x hx
        by_cases hxe : x.id = i.id
        · rw [huniq x hx c0 hc0mem (hxe.trans hc0id.symm)]
          simp [hc0id]
        · simp [hxe]
  · simp [run, hv] at hok

/-- Semantics of a successful `updatePoem`: under unique ids, the
target row exists, is owned by the caller, is returned patched, and the
new table is the old one with exactly that row replaced. -/
theorem updatePoem_ok_sem (i : UpdatePoemInput) (ctx : Ctx) (env : Env)
    (s : State) (u : User) (out : Output) (hu : ctx.user = some u)
    (huniq : ∀ a ∈ s.poems, ∀ b ∈ s.poems, a.id = b.id → a = b)
    (hok : (run (.updatePoem i) ctx env s).2 = .ok out) :
    ∃ p r, p ∈ s.poems ∧ p.id = i.id ∧ p.userId = u.id ∧
      out = .updatedPoem (some r) ∧ PoemPatched i env.now p r ∧
      (run (.updatePoem i) ctx env s).1.collections = s.collections ∧
      (run (.updatePoem i) ctx env s).1.poems
        = s.poems.map (fun x => if x.id = i.id then r else x) := by
  by_cases hv : validateRequest (.updatePoem i) = true
  · have hrun : run (.updatePoem i) ctx env s = updatePoem ctx env i s := by
      simp [run, hv]
    rw [hrun] at hok ⊢
    cases hg : s.poems.find? (fun p => p.id == i.id && p.userId == u.id) with
    | none => simp [updatePoem, requireUser, hu, hg] at hok
    | some p0 =>
      have hp0mem := List.mem_of_find?_eq_some hg
      have hp0p := List.find?_some hg
      simp only [Bool.and_eq_true, beq_iff_eq] at hp0p
      obtain ⟨hp0id, hp0uid⟩ := hp0p
      have hstep : updatePoem ctx env i s =
          ({ s with poems := (s.poems.map (fun x =>
              if x.id == i.id then applyPoemPatch i env.now x else x)) },
            .ok (.updatedPoem ((s.poems.map (fun x =>
              if x.id == i.id then applyPoemPatch i env.now x else x)).find? (fun p =>
                p.id == i.id)))) := by
        cases hci : i.collectionId with
        | none => simp [updatePoem, requireUser, hu, hg, hci]
        | some cid =>
          cases hgo : getOwnedCollection s cid u.id with
          | error e =>
            exfalso
            simp [updatePoem, requireUser, hu, hg, hci, hgo, Except.map] at hok
          | ok _ => simp [updatePoem, requireUser, hu, hg, hci, hgo, Except.map]
      have hfind1 : s.poems.find? (fun p => p.id == i.id) = some p0 := by
        cases hx : s.poems.find? (fun p => p.id == i.id) with
        | none =>
          exfalso
          apply List.find?_eq_none.mp hx p0 hp0mem
          simp [hp0id]
        | some x1 =>
          have hx1mem := List.mem_of_find?_eq_some hx
          have hx1p := List.find?_some hx
          simp only [beq_iff_eq] at hx1p
          rw [huniq x1 hx1mem p0 hp0mem (hx1p.trans hp0id.symm)]
      have hret : (s.poems.map (fun x =>
          if x.id == i.id then applyPoemPatch i env.now x else x)).find? (fun p =>
            p.id == i.id) = some (applyPoemPatch i env.now p0) := by
        rw [find_patched_poem, hfind1]
        simp [hp0id]
      rw [hstep] at hok
      simp only [hret] at hok
      refine ⟨p0, applyPoemPatch i env.now p0, hp0mem, hp0id, hp0uid,
        (Except.ok.inj hok).symm, applyPoemPatch_spec i env.now p0, ?_, ?_⟩
      · rw [hstep]
      · rw [hstep]
        apply List.map_congr_left
        intro x hx
        by_cases hxe : x.id = i.id
        · rw [huniq x hx p0 hp0mem (hxe.trans hp0id.symm)]
          simp [hp0id]
        · simp [hxe]
  · simp [run, hv] at hok

/-- C7: a successful updateCollection / updatePoem changes only the
supplied fields of the target row (omitted fields keep their previous
value and are not nulled), always refreshes the update timestamp,
returns the updated row, and replaces only same-id rows in its own
table, leaving every other row and the other table unchanged.  Stated
under the primary-key assumption that ids are unique in the table. -/
theorem update_partial_semantics :
    (∀ (i : UpdateCollectionInput) (ctx : Ctx) (env : Env) (s : State) (u : User)
        (out : Output), ctx.user = some u →
      (∀ a ∈ s.collections, ∀ b ∈ s.collections, a.id = b.id → a = b) →
      (run (.updateCollection i) ctx env s).2 = .ok out →
      ∃ c r, c ∈ s.collections ∧ c.id = i.id ∧ c.userId = u.id ∧
        out = .updatedCollection (some r) ∧ CollectionPatched i env.now c r ∧
        (run (.updateCollection i) ctx env s).1.poems = s.poems ∧
        (run (.updateCollection i) ctx env s).1.collections
          = s.collections.map (fun x => if x.id = i.id then r else x)) ∧
    (∀ (i : UpdatePoemInput) (ctx : Ctx) (env : Env) (s : State) (u : User)
        (out : Output), ctx.user = some u →
      (∀ a ∈ s.poems, ∀ b ∈ s.poems, a.id = b.id → a = b) →
      (run (.updatePoem i) ctx env s).2 = .ok out →
      ∃ p r, p ∈ s.poems ∧ p.id = i.id ∧ p.userId = u.id ∧
        out = .updatedPoem (some r) ∧ PoemPatched i env.now p r ∧
        (run (.updatePoem i) ctx env s).1.collections = s.collections ∧
        (run (.updatePoem i) ctx env s).1.poems
          = s.poems.map (fun x => if x.id = i.id then r else x)) :=
  ⟨fun i ctx env s u out hu hq hok => updateCollection_ok_sem i ctx env s u out hu hq hok,
   fun i ctx env s u out hu hq hok => updatePoem_ok_sem i ctx env s u out hu hq hok⟩

/-- C7 witness: renaming a collection and toggling a poem's favorite
flag, each on a one-row table. -/
theorem update_partial_semantics_witness :
    (∃ c r, c ∈ ([⟨"c1", "u1", "Nature", none, none, false, 1, 1⟩] : List Collection) ∧
      c.id = "c1" ∧ c.userId = "u1" ∧
      Output.updatedCollection (some ⟨"c1", "u1", "NewName", none, none, false, 1, 9⟩)
        = .updatedCollection (some r) ∧
      CollectionPatched ⟨"c1", some "NewName", none, none, none⟩ 9 c r ∧
      (run (.updateCollection ⟨"c1", some "NewName", none, none, none⟩) ⟨some ⟨"u1"⟩⟩
          ⟨"f", 9⟩ ⟨[⟨"c1", "u1", "Nature", none, none, false, 1, 1⟩], []⟩).1.poems = [] ∧
      (run (.updateCollection ⟨"c1", some "NewName", none, none, none⟩) ⟨some ⟨"u1"⟩⟩
          ⟨"f", 9⟩ ⟨[⟨"c1", "u1", "Nature", none, none, false, 1, 1⟩], []⟩).1.collections
        = ([⟨"c1", "u1", "Nature", none, none, false, 1, 1⟩] : List Collection).map
            (fun x => if x.id = "c1" then r else x)) ∧
    (∃ p r, p ∈ ([⟨"p1", some "c1", "u1", some "T", none, none, none, none, "body",
        none, false, 1, 1⟩] : List Poem) ∧
      p.id = "p1" ∧ p.userId = "u1" ∧
      Output.updatedPoem (some ⟨"p1", some "c1", "u1", some "T", none, none, none,
          none, "body", none, true, 1, 9⟩) = .updatedPoem (some r) ∧
      PoemPatched ⟨"p1", none, none, none, none, none, none, none, none, some true⟩ 9 p r ∧
      (run (.updatePoem ⟨"p1", none, none, none, none, none, none, none, none, some true⟩)
          ⟨some ⟨"u1"⟩⟩ ⟨"f", 9⟩ ⟨[], [⟨"p1", some "c1", "u1", some "T", none, none,
            none, none, "body", none, false, 1, 1⟩]⟩).1.collections = [] ∧
      (run (.updatePoem ⟨"p1", none, none, none, none, none, none, none, none, some true⟩)
          ⟨some ⟨"u1"⟩⟩ ⟨"f", 9⟩ ⟨[], [⟨"p1", some "c1", "u1", some "T", none, none,
            none, none, "body", none, false, 1, 1⟩]⟩).1.poems
        = ([⟨"p1", some "c1", "u1", some "T", none, none, none, none, "body", none,
            false, 1, 1⟩] : List Poem).map (fun x => if x.id = "p1" then r else x)) :=
  ⟨update_partial_semantics.1 ⟨"c1", some "NewName", none, none, none⟩ ⟨some ⟨"u1"⟩⟩
      ⟨"f", 9⟩ ⟨[⟨"c1", "u1", "Nature", none, none, false, 1, 1⟩], []⟩ ⟨"u1"⟩
      (.updatedCollection (some ⟨"c1", "u1", "NewName", none, none, false, 1, 9⟩))
      rfl (by simp) rfl,
    update_partial_semantics.2
      ⟨"p1", none, none, none, none, none, none, none, none, some true⟩ ⟨some ⟨"u1"⟩⟩
      ⟨"f", 9⟩ ⟨[], [⟨"p1", some "c1", "u1", some "T", none, none, none, none, "body",
        none, false, 1, 1⟩]⟩ ⟨"u1"⟩
      (.updatedPoem (some ⟨"p1", some "c1", "u1", some "T", none, none, none, none,
        "body", none, true, 1, 9⟩)) rfl (by simp) rfl⟩

/-- An unchanged poem table trivially satisfies provenance. -/
theorem poemOrigin_self (s : State) (env : Env) : PoemOrigin s env s.poems :=
  fun q hq => .inl ⟨q, hq, rfl, fun h => h⟩

/-- A poem table extended by a fresh-id row satisfies provenance. -/
theorem poemOrigin_append_fresh (s : State) (env : Env) (new : Poem)
    (hnew : new.id = env.freshId) : PoemOrigin s env (s.poems ++ [new]) := by
  intro q hq
  rcases List.mem_append.mp hq with hq1 | hq2
  · exact .inl ⟨q, hq1, rfl, fun h => h⟩
  · right
    rw [List.mem_singleton.mp hq2]
    exact hnew

/-- The poem table patched by updatePoem satisfies provenance: the
patch keeps ids, and it can set `collectionId` to a supplied string or
keep the old value, never clearing it. -/
theorem poemOrigin_map (s : State) (env : Env) (i : UpdatePoemInput) :
    PoemOrigin s env (s.poems.map (fun x =>
      if x.id == i.id then applyPoemPatch i env.now x else x)) := by
  intro q hq
  rcases List.mem_map.mp hq with ⟨x, hx, hgx⟩
  left
  refine ⟨x, hx, ?_, ?_⟩
  · rw [← hgx]
    by_cases hxe : (x.id == i.id) = true <;> simp [hxe, applyPoemPatch_id]
  · intro hxn
    rw [← hgx]
    by_cases hxe : (x.id == i.id) = true
    · simp only [hxe, if_true]
      cases hci : i.collectionId with
      | some v => simp [applyPoemPatch, hci]
      | none => simpa [applyPoemPatch, hci] using hxn
    · simpa [hxe] using hxn

/-- createCollection never touches the poem table. -/
theorem createCollection_poems (ctx : Ctx) (env : Env) (i : CreateCollectionInput)
    (s : State) : (createCollection ctx env i s).1.poems = s.poems := by
  cases h : ctx.user <;> simp [createCollection, requireUser, h]

/-- updateCollection never touches the poem table. -/
theorem updateCollection_poems (ctx : Ctx) (env : Env) (i : UpdateCollectionInput)
    (s : State) : (updateCollection ctx env i s).1.poems = s.poems := by
  cases h : ctx.user with
  | none => simp [updateCollection, requireUser, h]
  | some u =>
    cases hg : getOwnedCollection s i.id u.id <;>
      simp [updateCollection, requireUser, h, hg]

/-- listCollections never changes the store. -/
theorem listCollections_state (ctx : Ctx) (env : Env) (s : State) :
    (listCollections ctx env s).1 = s := by
  cases h : ctx.user <;> simp [listCollections, requireUser, h]

/-- listPoems never changes the store. -/
theorem listPoems_state (ctx : Ctx) (env : Env) (inp : Option ListPoemsInput)
    (s : State) : (listPoems ctx env inp s).1 = s := by
  unfold listPoems
  cases h : ctx.user with
  | none => simp [requireUser, h]
  | some u =>
    simp only [requireUser, h]
    split <;> rfl

/-- createPoem only appends the freshly identified row. -/
theorem createPoem_origin (ctx : Ctx) (env : Env) (i : CreatePoemInput) (s : State) :
    PoemOrigin s env ((createPoem ctx env i s).1.poems) := by
  unfold createPoem
  cases h : ctx.user with
  | none => simp only [requireUser, h]; exact poemOrigin_self s env
  | some u =>
    simp only [requireUser, h]
    split
    · exact poemOrigin_self s env
    · exact poemOrigin_append_fresh s env _ rfl

/-- deletePoem only removes rows. -/
theorem deletePoem_origin (ctx : Ctx) (env : Env) (i : DeletePoemInput) (s : State) :
    PoemOrigin s env ((deletePoem ctx env i s).1.poems) := by
  unfold deletePoem
  cases h : ctx.user with
  | none => simp only [requireUser, h]; exact poemOrigin_self s env
  | some u =>
    simp only [requireUser, h]
    split <;>
      exact fun q hq => .inl ⟨q, (List.mem_filter.mp hq).1, rfl, fun hc => hc⟩

/-- updatePoem rows keep their ids and are never un-filed. -/
theorem updatePoem_origin (ctx : Ctx) (env : Env) (i : UpdatePoemInput) (s : State) :
    PoemOrigin s env ((updatePoem ctx env i s).1.poems) := by
  unfold updatePoem
  cases h : ctx.user with
  | none => simp only [requireUser, h]; exact poemOrigin_self s env
  | some u =>
    simp only [requireUser, h]
    cases hg : s.poems.find? (fun p => p.id == i.id && p.userId == u.id) with
    | none => simp only [hg]; exact poemOrigin_self s env
    | some p0 =>
      simp only [hg]
      split
      · exact poemOrigin_self s env
      · exact poemOrigin_map s env i

/-- C10: no operation in the surface can change a poem's collectionId
from a non-null value back to null.  The updatePoem schema only admits
strings for collectionId (`none` means the field was omitted, `null` is
rejected at validation), so the handler either keeps the old reference
or overwrites it with a supplied string; no other operation modifies an
existing poem row.  Stated under the primary-key and fresh-UUID
assumptions of the store. -/
theorem poem_never_unfiled (req : Request) (ctx : Ctx) (env : Env) (s : State)
    (huniq : ∀ a ∈ s.poems, ∀ b ∈ s.poems, a.id = b.id → a = b)
    (hfresh : ∀ a ∈ s.poems, a.id ≠ env.freshId)
    (p : Poem) (hp : p ∈ s.poems) (hnn : p.collectionId ≠ none) :
    ∀ q ∈ (run req ctx env s).1.poems, q.id = p.id → q.collectionId ≠ none := by
  intro q hq hqid
  have horigin : PoemOrigin s env ((run req ctx env s).1.poems) := by
    by_cases hv : validateRequest req = true
    · cases req with
      | createCollection i =>
        simp only [run, hv, if_true]
        rw [createCollection_poems]
        exact poemOrigin_self s env
      | updateCollection i =>
        simp only [run, hv, if_true]
        rw [updateCollection_poems]
        exact poemOrigin_self s env
      | listCollections i =>
        simp only [run, hv, if_true]
        rw [listCollections_state]
        exact poemOrigin_self s env
      | createPoem i =>
        simp only [run, hv, if_true]
        exact createPoem_origin ctx env i s
      | updatePoem i =>
        simp only [run, hv, if_true]
        exact updatePoem_origin ctx env i s
      | deletePoem i =>
        simp only [run, hv, if_true]
        exact deletePoem_origin ctx env i s
      | listPoems inp =>
        simp only [run, hv, if_true]
        rw [listPoems_state]
        exact poemOrigin_self s env
    · simp only [run, hv, if_false]
      exact poemOrigin_self s env
  rcases horigin q hq with ⟨x, hx, hqx, himp⟩ | hfr
  · have hxp : x = p := huniq x hx p hp (hqx.symm.trans hqid)
    rw [hxp] at himp
    exact himp hnn
  · exact absurd (hqid.symm.trans hfr) (hfresh p hp)

/-- C10 witness: updating the title of a filed poem on a one-row store
leaves the updated row — present in the post-state with the target id —
still filed. -/
theorem poem_never_unfiled_witness :
    (⟨"p1", some "c1", "u1", some "NewTitle", none, none, none, none, "body",
      none, false, 1, 9⟩ : Poem).collectionId ≠ none :=
  poem_never_unfiled
    (.updatePoem ⟨"p1", none, some "NewTitle", none, none, none, none, none, none, none⟩)
    ⟨some ⟨"u1"⟩⟩ ⟨"fresh", 9⟩
    ⟨[], [⟨"p1", some "c1", "u1", some "T", none, none, none, none, "body", none,
      false, 1, 1⟩]⟩
    (by simp) (by simp)
    ⟨"p1", some "c1", "u1", some "T", none, none, none, none, "body", none, false, 1, 1⟩
    (by simp) (by simp)
    ⟨"p1", some "c1", "u1", some "NewTitle", none, none, none, none, "body", none,
      false, 1, 9⟩
    (by decide)
    rfl

end PoemStudio
